import Mathlib

/-!
Verification of the dx7dump binary decoding core (Yamaha DX7 sysex bank
dump tool).  The definitions below are a shallow embedding of the C++
source: machine bytes are modelled as `Nat` with explicit `% 256` and
`% 128` where 8-bit wraparound and 7-bit masking occur, the fixed-size
structs become Lean structures whose payload arrays are byte lists, and
the global flags mutated by the validator and the file-ingestion code are
threaded as explicit state records.  File-system effects of the repair
routine are modelled by explicit success flags plus a trace of the
attempted operations.
-/

set_option maxRecDepth 2000

namespace DX7Dump

/-- File-size constant: a full 32-voice bank sysex file. -/
def sysexSize : Nat := 4104

/-- File-size constant: the raw 32-voice payload without header or footer. -/
def rawDataSize : Nat := 4096

/-- File-size constant: a full single-voice sysex file. -/
def singleSysexSize : Nat := 163

/-- Struct-size constant: `sizeof(VoicePacked)`, the 128-byte packed voice
record (17 bytes for each of 6 operators, 16 shared parameter bytes, and
the 10-byte name). -/
def sizeofVoicePacked : Nat := 128

/-- Struct-size constant: `sizeof(VoiceUnpacked)`, 21 bytes for each of 6
operators plus 19 shared parameter bytes, the 10-byte name and the
`opOnOff` byte: 156 bytes. -/
def sizeofVoiceUnpacked : Nat := 156

/-- The 8-bit accumulation loop shared by both checksum functions:
`sum += (p[i] & 0x7F)` with `sum` an `unsigned char`, so every byte is
masked to its low 7 bits and the running sum wraps modulo 256. -/
def sum7 (data : List Nat) : Nat :=
  data.foldl (fun sum b => (sum + b % 128) % 256) 0

/-- The common tail of both checksum functions: after the accumulation
loop, `sum = (~sum) + 1` in `unsigned char` arithmetic (bitwise complement
of an 8-bit value is `255 - sum`, the increment wraps modulo 256), then
`sum &= 0x7F` masks the result to 7 bits. -/
def checksumBytes (data : List Nat) : Nat :=
  ((255 - sum7 data + 1) % 256) % 128

/-- The fixed-layout bank struct `DX7Sysex`: a 6-byte header, the 4096
packed bytes of the 32 voices (kept here as one byte list, exactly the
span the checksum loop walks), the checksum byte and the end marker. -/
structure DX7Sysex where
  sysexBeginF0 : Nat
  yamaha43 : Nat
  subStatusAndChannel : Nat
  format9 : Nat
  sizeMSB : Nat
  sizeLSB : Nat
  voices : List Nat
  checksum : Nat
  sysexEndF7 : Nat
  deriving Repr, DecidableEq

/-- `Checksum(const DX7Sysex *)`: runs the 7-bit accumulation over the
`rawDataSize` bytes starting at `sysex->voices` (which is precisely the
`voices` byte list of the struct), then negates and masks. -/
def Checksum (sysex : DX7Sysex) : Nat :=
  checksumBytes sysex.voices

/-- The state the bank validator reads and writes besides the bank
itself: the global `fixNeeded` flag and the last diagnostic written to
`msgBuffer` (tags 1..7 stand for the seven sprintf format strings, in
source order). -/
structure VerifyState where
  bank : DX7Sysex
  fixNeeded : Bool
  msg : Option Nat
  deriving Repr, DecidableEq

/-- `Verify(const DX7Sysex *)` of the bank pipeline, returning the int
result together with the updated flag state.  Note on the sub-status
check: the C source tests `sysex->subStatusAndChannel & 0xF0 != 0`, and
in C `!=` binds tighter than `&`, so the expression evaluates as
`subStatusAndChannel & (0xF0 != 0)`, i.e. `subStatusAndChannel & 1`: the
test fires exactly when the low bit of the byte is set. -/
def Verify (st : VerifyState) : Nat × VerifyState :=
  let s := st.bank
  if s.sysexBeginF0 ≠ 0xF0 then (1, { st with msg := some 1 })
  else if s.yamaha43 ≠ 0x43 then (1, { st with msg := some 2 })
  else
    let st1 := if s.subStatusAndChannel &&& 1 ≠ 0 then
        { st with fixNeeded := true, msg := some 3 } else st
    let st2 := if s.format9 ≠ 0x09 then
        { st1 with fixNeeded := true, msg := some 4 } else st1
    let st3 := if s.sizeMSB ≠ 0x20 ∨ s.sizeLSB ≠ 0 then
        { st2 with fixNeeded := true, msg := some 5 } else st2
    if s.sysexEndF7 ≠ 0xF7 then (1, { st3 with msg := some 6 })
    else if Checksum s ≠ s.checksum then
      (0, { st3 with fixNeeded := true, msg := some 7 })
    else (0, st3)

/-- The caller side of repair in `processFile`: a nonzero `Verify` result
returns from the function before the fix block, so repair is offered only
when `Verify` returned 0 and left `fixNeeded` set (and the `--fix` option
is on). -/
def repairOffered (st : VerifyState) (fixFiles : Bool) : Bool :=
  if (Verify st).1 ≠ 0 then false
  else fixFiles && (Verify st).2.fixNeeded

/-- The in-memory mutation prefix of `FixFile`: the eight assignments
that force the header fields, the recomputed checksum and the end marker
to their canonical values, in source order (the checksum is recomputed
after the header stores, over the untouched voice payload). -/
def fixBank (sysex : DX7Sysex) : DX7Sysex :=
  let s1 := { sysex with sysexBeginF0 := 0xF0 }
  let s2 := { s1 with yamaha43 := 0x43 }
  let s3 := { s2 with subStatusAndChannel := 0 }
  let s4 := { s3 with format9 := 0x09 }
  let s5 := { s4 with sizeMSB := 0x20 }
  let s6 := { s5 with sizeLSB := 0 }
  let s7 := { s6 with checksum := Checksum s6 }
  { s7 with sysexEndF7 := 0xF7 }

/-- File-system operations `FixFile` can attempt, in the order they may
occur: the backup `rename`, the `fopen(filename, "wb")`, and the
`fwrite` of the whole buffer. -/
inductive FileOp where
  | rename
  | openWrite
  | write
  deriving Repr, DecidableEq

/-- `FixFile(DX7Sysex *, const char *)`: mutates the buffer to canonical
form, then (unless `noBackup`) renames the original to `<path>.ORIG`,
aborting with result 1 if the rename fails; then opens the target for
truncating binary write and writes the buffer, returning 1 on open or
short-write failure and 0 on success.  The success of each OS call is an
explicit input and the attempted calls are returned as a trace. -/
def FixFile (sysex : DX7Sysex) (noBackup renameOk openOk writeOk : Bool) :
    Nat × DX7Sysex × List FileOp :=
  let s := fixBank sysex
  if !noBackup && !renameOk then
    (1, s, [FileOp.rename])
  else
    let backupOps : List FileOp := if noBackup then [] else [FileOp.rename]
    if !openOk then
      (1, s, backupOps ++ [FileOp.openWrite])
    else if !writeOk then
      (1, s, backupOps ++ [FileOp.openWrite, FileOp.write])
    else
      (0, s, backupOps ++ [FileOp.openWrite, FileOp.write])

/-- The fixed-layout single-voice struct `DX7SingleSysex`: 6-byte header,
the unpacked voice record as a byte list (156 bytes including the
`opOnOff` byte), the checksum byte and the end marker. -/
structure DX7SingleSysex where
  sysexBeginF0 : Nat
  yamaha43 : Nat
  subStatusAndChannel : Nat
  format0 : Nat
  sizeMSB : Nat
  sizeLSB : Nat
  voice : List Nat
  checksum : Nat
  sysexEndF7 : Nat
  deriving Repr, DecidableEq

/-- `ChecksumSingle(const VoiceUnpacked *, unsigned)`: the same 7-bit
checksum over the first `blocksize` bytes of the voice record. -/
def ChecksumSingle (voice : List Nat) (blocksize : Nat) : Nat :=
  checksumBytes (voice.take blocksize)

/-- The value of the local `error` accumulator of `VerifySingle` after
the seven structural checks; each failed check adds its own power of
two.  The sub-status test suffers the same C precedence slip as in
`Verify` and fires on the low bit of the byte. -/
def verifySingleErr (s : DX7SingleSysex) : Nat :=
  (if s.sysexBeginF0 ≠ 0xF0 then 128 else 0) +
  (if s.yamaha43 ≠ 0x43 then 64 else 0) +
  (if s.subStatusAndChannel &&& 1 ≠ 0 then 32 else 0) +
  (if s.format0 ≠ 0x00 then 16 else 0) +
  (if s.sizeMSB ≠ 0x01 then 8 else 0) +
  (if s.sizeLSB ≠ 0x1B then 4 else 0) +
  (if s.sysexEndF7 ≠ 0xF7 then 1 else 0)

/-- The final value of the `error` accumulator: when all seven structural
contributions are zero the checksum is compared (over
`sizeof(VoiceUnpacked)` bytes) and a mismatch adds 2. -/
def verifySingleErrFinal (s : DX7SingleSysex) : Nat :=
  if verifySingleErr s = 0 ∧
      ChecksumSingle s.voice sizeofVoiceUnpacked ≠ s.checksum then
    verifySingleErr s + 2
  else verifySingleErr s

/-- `VerifySingle(const DX7SingleSysex *)`: returns 0 ("basic check
passed") whenever the seven structural checks are clean — the checksum
comparison inside that branch can add 2 to `error` and print a
diagnostic, but the function still returns 0 — and 1 otherwise. -/
def VerifySingle (s : DX7SingleSysex) : Nat :=
  if verifySingleErr s = 0 then 0 else 1

/-- The byte span `memcmp` compares for voices `i` and `j` in
`FindDupes`: `sizeof(VoicePacked) - 10 = 118` bytes starting at
`&voices[i]`, i.e. at byte offset `128 * i` of the packed payload. -/
def voiceCmp (sysex : DX7Sysex) (i : Nat) : List Nat :=
  (sysex.voices.drop (sizeofVoicePacked * i)).take (sizeofVoicePacked - 10)

/-- `FindDupes(const DX7Sysex *)`: the nested loops `for i in 0..30`,
`for j in i+1..31`, reporting the pair whenever the 118-byte `memcmp` is
zero.  The result list is the sequence of reported pairs in loop order. -/
def FindDupes (sysex : DX7Sysex) : List (Nat × Nat) :=
  (List.range 31).flatMap fun i =>
    ((List.range' (i + 1) (31 - i)).filter fun j =>
        decide (voiceCmp sysex i = voiceCmp sysex j)).map fun j => (i, j)

/-- Strict lexicographic order on reported pairs: ascending first index,
then ascending second index. -/
abbrev pairLt (p q : Nat × Nat) : Prop :=
  p.1 < q.1 ∨ (p.1 = q.1 ∧ p.2 < q.2)

/-- All candidate pairs in the order the nested loops of `FindDupes`
enumerate them. -/
def allPairs : List (Nat × Nat) :=
  (List.range 31).flatMap fun i =>
    (List.range' (i + 1) (31 - i)).map fun j => (i, j)

/-- The four file shapes the size classifier distinguishes (plus the two
rejection outcomes). -/
inductive Shape where
  | fullBank
  | headerlessBank
  | fullSingleVoice
  | tooBig
  | tooSmall
  deriving Repr, DecidableEq

/-- The globals `processFile` reads and writes during ingestion: the
4104-byte file buffer and the `softError`, `sysexFile`, `fixNeeded` and
`singleVoiceFile` flags. -/
structure PState where
  buffer : List Nat
  softError : Bool
  sysexFile : Bool
  fixNeeded : Bool
  singleVoiceFile : Bool
  deriving Repr, DecidableEq

/-- Initial global state of a fresh process: the static buffer is
zero-initialized, `sysexFile` starts true, the other flags false. -/
def initialPState : PState :=
  { buffer := List.replicate sysexSize 0
    softError := false
    sysexFile := true
    fixNeeded := false
    singleVoiceFile := false }

/-- The size-classification stage of `processFile`: dispatch on the exact
file length.  A full bank read fills the whole buffer; a headerless
(raw) file is read into `buffer + 6`, leaving bytes 0..5 and the last
two bytes as they were, and unconditionally sets `softError`,
`fixNeeded` and clears `sysexFile`; a single-voice file fills the first
163 bytes and sets `singleVoiceFile`; anything else is rejected by
size. -/
def processFileIngest (content : List Nat) (st : PState) : Shape × PState :=
  if content.length = sysexSize then
    (Shape.fullBank, { st with buffer := content })
  else if content.length = rawDataSize then
    (Shape.headerlessBank,
      { st with
          buffer := st.buffer.take 6 ++ content ++ st.buffer.drop (6 + rawDataSize)
          softError := true
          sysexFile := false
          fixNeeded := true })
  else if content.length = singleSysexSize then
    (Shape.fullSingleVoice,
      { st with
          buffer := content ++ st.buffer.drop singleSysexSize
          singleVoiceFile := true })
  else if content.length > sysexSize then
    (Shape.tooBig, st)
  else
    (Shape.tooSmall, st)

/-- Whether the structural bank validator runs after ingestion: the
single-voice branch returns before it, and the call itself is guarded by
`if (sysexFile && Verify(sysex) != 0)`. -/
def verifierRuns (st : PState) : Bool :=
  !st.singleVoiceFile && st.sysexFile

/-- The canonical 6-byte bank header (start marker, vendor id,
sub-status 0, bank format id, canonical size pair). -/
def canonicalHeader : List Nat := [0xF0, 0x43, 0x00, 0x09, 0x20, 0x00]

/-- An all-zero canonical bank, used as the concrete test vehicle. -/
def canonicalBank : DX7Sysex :=
  { sysexBeginF0 := 0xF0
    yamaha43 := 0x43
    subStatusAndChannel := 0
    format9 := 0x09
    sizeMSB := 0x20
    sizeLSB := 0
    voices := List.replicate rawDataSize 0
    checksum := 0
    sysexEndF7 := 0xF7 }

/-- A structurally canonical single-voice dump over an all-zero voice
record with a deliberately wrong stored checksum byte. -/
def badChecksumSingle : DX7SingleSysex :=
  { sysexBeginF0 := 0xF0
    yamaha43 := 0x43
    subStatusAndChannel := 0
    format0 := 0x00
    sizeMSB := 0x01
    sizeLSB := 0x1B
    voice := List.replicate sizeofVoiceUnpacked 0
    checksum := 0x01
    sysexEndF7 := 0xF7 }

-- ***************************************************************************
-- Theorems
-- ***************************************************************************

/-- The running 8-bit sum stays below 256. -/
theorem foldl_sum7_lt (l : List Nat) (a : Nat) (ha : a < 256) :
    l.foldl (fun sum b => (sum + b % 128) % 256) a < 256 := by
  induction l generalizing a with
  | nil => simpa using ha
  | cons x xs ih =>
      simp only [List.foldl_cons]
      exact ih _ (Nat.mod_lt _ (by norm_num))

theorem sum7_lt (l : List Nat) : sum7 l < 256 :=
  foldl_sum7_lt l 0 (by norm_num)

/-- The 7-bit sum of an all-zero byte block is zero. -/
theorem sum7_replicate_zero (n : Nat) : sum7 (List.replicate n 0) = 0 := by
  induction n with
  | zero => rfl
  | succ k ih =>
      simp only [sum7, List.replicate_succ, List.foldl_cons] at ih ⊢
      simpa using ih

/-- The checksum of an all-zero byte block is zero. -/
theorem checksumBytes_replicate_zero (n : Nat) :
    checksumBytes (List.replicate n 0) = 0 := by
  simp [checksumBytes, sum7_replicate_zero]

/-- C1: for every 4096-byte bank payload, the checksum is the twos
complement (in 8-bit arithmetic) of the 7-bit-masked byte sum, masked to
7 bits; hence adding it back to the 7-bit sum gives 0 modulo 128 and the
result always lies in 0..127. -/
theorem checksum_roundtrip (sysex : DX7Sysex)
    (_h : sysex.voices.length = rawDataSize) :
    (sum7 sysex.voices + Checksum sysex) % 128 = 0 ∧ Checksum sysex < 128 := by
  have hs := sum7_lt sysex.voices
  unfold Checksum checksumBytes
  constructor
  · omega
  · omega

/-- Witness for C1 at the all-zero canonical bank. -/
theorem checksum_roundtrip_witness :
    canonicalBank.voices.length = rawDataSize ∧
    (sum7 canonicalBank.voices + Checksum canonicalBank) % 128 = 0 ∧
    Checksum canonicalBank < 128 :=
  ⟨by simp [canonicalBank], checksum_roundtrip canonicalBank (by simp [canonicalBank])⟩

/-- C2: when a backup is requested (`noBackup = false`) and the rename of
the original to `<path>.ORIG` fails, `FixFile` returns the error result 1
and its file-system trace is exactly the failed rename: the target file
is never opened and the corrected buffer is never written. -/
theorem fixfile_backup_abort (sysex : DX7Sysex) (openOk writeOk : Bool) :
    (FixFile sysex false false openOk writeOk).1 = 1 ∧
    (FixFile sysex false false openOk writeOk).2.2 = [FileOp.rename] ∧
    FileOp.openWrite ∉ (FixFile sysex false false openOk writeOk).2.2 ∧
    FileOp.write ∉ (FixFile sysex false false openOk writeOk).2.2 := by
  simp [FixFile]

/-- C9: the structural bank validator never mutates the buffer: the bank
inside the state it returns is the bank it was given. -/
theorem verify_preserves_buffer (st : VerifyState) :
    ((Verify st).2).bank = st.bank := by
  unfold Verify
  dsimp only
  split_ifs <;> rfl

/-- C10: the bank checksum reads only the 4096 voice-payload bytes: any
two banks with identical voice payloads get the same checksum, whatever
their header bytes, stored checksum byte or end marker. -/
theorem checksum_depends_only_on_voices (s1 s2 : DX7Sysex)
    (h : s1.voices = s2.voices) : Checksum s1 = Checksum s2 := by
  unfold Checksum
  rw [h]

/-- Witness for C10: a canonical bank and a copy with mangled header,
stored checksum and end marker share a checksum. -/
theorem checksum_depends_only_on_voices_witness :
    canonicalBank.voices =
      ({ canonicalBank with
          subStatusAndChannel := 0x0F
          checksum := 0x55
          sysexEndF7 := 0 } : DX7Sysex).voices ∧
    Checksum canonicalBank =
      Checksum { canonicalBank with
          subStatusAndChannel := 0x0F
          checksum := 0x55
          sysexEndF7 := 0 } :=
  ⟨rfl, checksum_depends_only_on_voices _ _ rfl⟩

/-- C3: for a bank whose only deviations are recoverable (start marker,
vendor id and end marker are intact), the repaired buffer passes a fresh
validation with no repair flag: the repair transform forces every
header/footer field to its canonical constant and recomputes the
checksum over the unchanged payload. -/
theorem repair_convergence (sysex : DX7Sysex)
    (_h1 : sysex.sysexBeginF0 = 0xF0) (_h2 : sysex.yamaha43 = 0x43)
    (_h3 : sysex.sysexEndF7 = 0xF7) :
    (Verify { bank := fixBank sysex, fixNeeded := false, msg := none }).1 = 0 ∧
    (Verify { bank := fixBank sysex, fixNeeded := false, msg := none }).2.fixNeeded
      = false := by
  simp [Verify, fixBank, Checksum]

/-- Witness for C3 at a bank with a wrong format id, wrong size bytes and
wrong stored checksum (all recoverable). -/
theorem repair_convergence_witness :
    ({ canonicalBank with format9 := 0, sizeMSB := 0, checksum := 5 } :
        DX7Sysex).sysexBeginF0 = 0xF0 ∧
    (Verify
        { bank := fixBank { canonicalBank with format9 := 0, sizeMSB := 0, checksum := 5 }
          fixNeeded := false
          msg := none }).1 = 0 ∧
    (Verify
        { bank := fixBank { canonicalBank with format9 := 0, sizeMSB := 0, checksum := 5 }
          fixNeeded := false
          msg := none }).2.fixNeeded = false := by
  refine ⟨rfl, ?_⟩
  exact repair_convergence _ rfl rfl rfl

/-- C4 (code bug): the sub-status check of `Verify` was meant to flag a
nonzero sub-status nibble, but `subStatusAndChannel & 0xF0 != 0` parses
in C as `subStatusAndChannel & 1`.  On an otherwise canonical bank with
sub-status byte 0x10 (sub-status nibble 1, channel 0) no repair is
flagged, while with byte 0x01 (sub-status nibble 0, channel 1) a repair
is flagged. -/
theorem substatus_check_bug :
    (Verify { bank := { canonicalBank with subStatusAndChannel := 0x10 },
              fixNeeded := false, msg := none }).2.fixNeeded = false ∧
    (Verify { bank := { canonicalBank with subStatusAndChannel := 0x01 },
              fixNeeded := false, msg := none }).2.fixNeeded = true := by
  constructor <;>
    simp [Verify, canonicalBank, Checksum, checksumBytes_replicate_zero]

/-- C6: a bank whose end marker differs from 0xF7 makes `Verify` report a
fatal nonzero result; the outcome is entirely independent of the stored
checksum byte (the checksum comparison is never reached), the `fixNeeded`
flag the validator leaves behind is exactly the one produced by the three
recoverable header checks (the end-marker deviation itself never sets
it), and repair is never offered for such a buffer. -/
theorem endmarker_fatal (st : VerifyState) (h : st.bank.sysexEndF7 ≠ 0xF7) :
    (Verify st).1 = 1 ∧
    (∀ c : Nat,
      (Verify { st with bank := { st.bank with checksum := c } }).1 = (Verify st).1 ∧
      (Verify { st with bank := { st.bank with checksum := c } }).2.fixNeeded
        = (Verify st).2.fixNeeded ∧
      (Verify { st with bank := { st.bank with checksum := c } }).2.msg
        = (Verify st).2.msg) ∧
    (∀ ff : Bool, repairOffered st ff = false) ∧
    ((Verify st).2.fixNeeded =
      if st.bank.sysexBeginF0 ≠ 0xF0 then st.fixNeeded
      else if st.bank.yamaha43 ≠ 0x43 then st.fixNeeded
      else if st.bank.sizeMSB ≠ 0x20 ∨ st.bank.sizeLSB ≠ 0 then true
      else if st.bank.format9 ≠ 0x09 then true
      else if st.bank.subStatusAndChannel &&& 1 ≠ 0 then true
      else st.fixNeeded) := by
  by_cases h1 : st.bank.sysexBeginF0 = 0xF0 <;>
  by_cases h2 : st.bank.yamaha43 = 0x43 <;>
  by_cases h3 : st.bank.subStatusAndChannel % 2 = 1 <;>
  by_cases h4 : st.bank.format9 = 0x09 <;>
  by_cases h5 : st.bank.sizeMSB ≠ 0x20 ∨ st.bank.sizeLSB ≠ 0 <;>
  simp [Verify, repairOffered, h, h1, h2, h3, h4, h5]

/-- Witness for C6 at a canonical bank whose end marker was zeroed. -/
theorem endmarker_fatal_witness :
    ({ bank := { canonicalBank with sysexEndF7 := 0 }, fixNeeded := false,
       msg := none } : VerifyState).bank.sysexEndF7 ≠ 0xF7 ∧
    (Verify { bank := { canonicalBank with sysexEndF7 := 0 },
              fixNeeded := false, msg := none }).1 = 1 := by
  refine ⟨by decide, ?_⟩
  exact (endmarker_fatal _ (by decide)).1

/-- C5 counterexample: on a single-voice dump whose seven structural
checks all pass but whose stored checksum byte is wrong, the error code
ends up nonzero (bit 1 set, value 2) yet `VerifySingle` still returns 0:
a nonzero code is not always reported as failure. -/
theorem verifysingle_checksum_not_failure :
    VerifySingle badChecksumSingle = 0 ∧
    verifySingleErrFinal badChecksumSingle = 2 := by
  have herr : verifySingleErr badChecksumSingle = 0 := by decide
  have hchk : ChecksumSingle badChecksumSingle.voice sizeofVoiceUnpacked = 0 := by
    simp [ChecksumSingle, badChecksumSingle, List.take_replicate,
      checksumBytes_replicate_zero]
  have hcb : badChecksumSingle.checksum = 1 := rfl
  constructor
  · simp [VerifySingle, herr]
  · simp [verifySingleErrFinal, herr, hchk, hcb]

/-- Arithmetic helper: in a sum of the eight weighted indicator values,
each indicator is recovered as its own bit. -/
theorem bit_decomp (a7 a6 a5 a4 a3 a2 a1 a0 : Nat)
    (h7 : a7 ≤ 1) (h6 : a6 ≤ 1) (h5 : a5 ≤ 1) (h4 : a4 ≤ 1)
    (h3 : a3 ≤ 1) (h2 : a2 ≤ 1) (h1 : a1 ≤ 1) (h0 : a0 ≤ 1) :
    ((128 * a7 + 64 * a6 + 32 * a5 + 16 * a4 + 8 * a3 + 4 * a2 + 2 * a1 + a0).testBit 7
        = true ↔ a7 = 1) ∧
    ((128 * a7 + 64 * a6 + 32 * a5 + 16 * a4 + 8 * a3 + 4 * a2 + 2 * a1 + a0).testBit 6
        = true ↔ a6 = 1) ∧
    ((128 * a7 + 64 * a6 + 32 * a5 + 16 * a4 + 8 * a3 + 4 * a2 + 2 * a1 + a0).testBit 5
        = true ↔ a5 = 1) ∧
    ((128 * a7 + 64 * a6 + 32 * a5 + 16 * a4 + 8 * a3 + 4 * a2 + 2 * a1 + a0).testBit 4
        = true ↔ a4 = 1) ∧
    ((128 * a7 + 64 * a6 + 32 * a5 + 16 * a4 + 8 * a3 + 4 * a2 + 2 * a1 + a0).testBit 3
        = true ↔ a3 = 1) ∧
    ((128 * a7 + 64 * a6 + 32 * a5 + 16 * a4 + 8 * a3 + 4 * a2 + 2 * a1 + a0).testBit 2
        = true ↔ a2 = 1) ∧
    ((128 * a7 + 64 * a6 + 32 * a5 + 16 * a4 + 8 * a3 + 4 * a2 + 2 * a1 + a0).testBit 1
        = true ↔ a1 = 1) ∧
    ((128 * a7 + 64 * a6 + 32 * a5 + 16 * a4 + 8 * a3 + 4 * a2 + 2 * a1 + a0).testBit 0
        = true ↔ a0 = 1) := by
  simp only [Nat.testBit_to_div_mod, decide_eq_true_eq]
  norm_num
  omega

/-- Helper: a 0/1 indicator equals 1 exactly when its condition holds. -/
theorem ite_one_eq (p : Prop) [Decidable p] :
    ((if p then (1 : Nat) else 0) = 1 ↔ p) := by
  split_ifs with h <;> simp [h]

/-- C5 (amended): each of the seven structural checks of `VerifySingle`
contributes its own distinct bit (7 down to 2 and 0) of the error code,
the checksum is compared only when all seven structural bits are clear
and contributes bit 1 on mismatch, and the function reports failure
exactly when one of the seven structural bits is set — a checksum-only
mismatch leaves the return value 0. -/
theorem verifysingle_error_bits (s : DX7SingleSysex) :
    ((verifySingleErrFinal s).testBit 7 = true ↔ s.sysexBeginF0 ≠ 0xF0) ∧
    ((verifySingleErrFinal s).testBit 6 = true ↔ s.yamaha43 ≠ 0x43) ∧
    ((verifySingleErrFinal s).testBit 5 = true ↔ s.subStatusAndChannel &&& 1 ≠ 0) ∧
    ((verifySingleErrFinal s).testBit 4 = true ↔ s.format0 ≠ 0x00) ∧
    ((verifySingleErrFinal s).testBit 3 = true ↔ s.sizeMSB ≠ 0x01) ∧
    ((verifySingleErrFinal s).testBit 2 = true ↔ s.sizeLSB ≠ 0x1B) ∧
    ((verifySingleErrFinal s).testBit 0 = true ↔ s.sysexEndF7 ≠ 0xF7) ∧
    ((verifySingleErrFinal s).testBit 1 = true ↔
      (verifySingleErr s = 0 ∧
        ChecksumSingle s.voice sizeofVoiceUnpacked ≠ s.checksum)) ∧
    (VerifySingle s = 1 ↔ verifySingleErr s ≠ 0) := by
  have hd : verifySingleErr s =
      128 * (if s.sysexBeginF0 ≠ 0xF0 then 1 else 0) +
      64 * (if s.yamaha43 ≠ 0x43 then 1 else 0) +
      32 * (if s.subStatusAndChannel &&& 1 ≠ 0 then 1 else 0) +
      16 * (if s.format0 ≠ 0x00 then 1 else 0) +
      8 * (if s.sizeMSB ≠ 0x01 then 1 else 0) +
      4 * (if s.sizeLSB ≠ 0x1B then 1 else 0) +
      1 * (if s.sysexEndF7 ≠ 0xF7 then 1 else 0) := by
    unfold verifySingleErr
    split_ifs <;> rfl
  have hf : verifySingleErrFinal s = verifySingleErr s +
      2 * (if (verifySingleErr s = 0 ∧
            ChecksumSingle s.voice sizeofVoiceUnpacked ≠ s.checksum) then 1 else 0) := by
    unfold verifySingleErrFinal
    split_ifs <;> omega
  have hcomb : verifySingleErrFinal s =
      128 * (if s.sysexBeginF0 ≠ 0xF0 then 1 else 0) +
      64 * (if s.yamaha43 ≠ 0x43 then 1 else 0) +
      32 * (if s.subStatusAndChannel &&& 1 ≠ 0 then 1 else 0) +
      16 * (if s.format0 ≠ 0x00 then 1 else 0) +
      8 * (if s.sizeMSB ≠ 0x01 then 1 else 0) +
      4 * (if s.sizeLSB ≠ 0x1B then 1 else 0) +
      2 * (if (verifySingleErr s = 0 ∧
            ChecksumSingle s.voice sizeofVoiceUnpacked ≠ s.checksum) then 1 else 0) +
      (if s.sysexEndF7 ≠ 0xF7 then 1 else 0) := by
    rw [hf, hd]
    omega
  have hb := bit_decomp
      (if s.sysexBeginF0 ≠ 0xF0 then 1 else 0)
      (if s.yamaha43 ≠ 0x43 then 1 else 0)
      (if s.subStatusAndChannel &&& 1 ≠ 0 then 1 else 0)
      (if s.format0 ≠ 0x00 then 1 else 0)
      (if s.sizeMSB ≠ 0x01 then 1 else 0)
      (if s.sizeLSB ≠ 0x1B then 1 else 0)
      (if (verifySingleErr s = 0 ∧
            ChecksumSingle s.voice sizeofVoiceUnpacked ≠ s.checksum) then 1 else 0)
      (if s.sysexEndF7 ≠ 0xF7 then 1 else 0)
      (by split_ifs <;> omega) (by split_ifs <;> omega) (by split_ifs <;> omega)
      (by split_ifs <;> omega) (by split_ifs <;> omega) (by split_ifs <;> omega)
      (by split_ifs <;> omega) (by split_ifs <;> omega)
  rw [hcomb]
  obtain ⟨b7, b6, b5, b4, b3, b2, b1, b0⟩ := hb
  refine ⟨b7.trans (ite_one_eq _), b6.trans (ite_one_eq _), b5.trans (ite_one_eq _),
    b4.trans (ite_one_eq _), b3.trans (ite_one_eq _), b2.trans (ite_one_eq _),
    b0.trans (ite_one_eq _), b1.trans (ite_one_eq _), ?_⟩
  unfold VerifySingle
  split_ifs with h <;> simp [h]

/-- C7 counterexample: on a fresh process state, ingesting a 4096-byte
file classifies it as a headerless bank, but no canonical 6-byte header
is synthesized: the payload is stored at buffer offset 6 and the first 6
buffer bytes keep their previous (zero-initialized) contents, which are
not the canonical header. -/
theorem headerless_no_canonical_header :
    (processFileIngest (List.replicate rawDataSize 1) initialPState).1
      = Shape.headerlessBank ∧
    (processFileIngest (List.replicate rawDataSize 1) initialPState).2.buffer.take 6
      ≠ canonicalHeader := by
  have hlen : (List.replicate rawDataSize (1 : Nat)).length = rawDataSize :=
    List.length_replicate ..
  have hres : processFileIngest (List.replicate rawDataSize 1) initialPState
      = (Shape.headerlessBank,
        { initialPState with
            buffer := initialPState.buffer.take 6 ++ List.replicate rawDataSize 1 ++
              initialPState.buffer.drop (6 + rawDataSize)
            softError := true
            sysexFile := false
            fixNeeded := true }) := by
    unfold processFileIngest
    rw [hlen, if_neg (by decide), if_pos rfl]
  have h60 : initialPState.buffer.take 6 = List.replicate 6 0 := by
    rw [show initialPState.buffer = List.replicate sysexSize 0 from rfl,
      List.take_replicate]
    decide
  rw [hres]
  refine ⟨rfl, ?_⟩
  show (initialPState.buffer.take 6 ++ List.replicate rawDataSize 1 ++
      initialPState.buffer.drop (6 + rawDataSize)).take 6 ≠ canonicalHeader
  rw [List.append_assoc, List.take_left' (by rw [h60]; decide), h60]
  decide

/-- C7 (amended): a file of exactly 4096 bytes classifies as a
headerless bank, unconditionally sets the repair flag and the
soft/recoverable-error flag, and the structural sysex validator never
runs on it; the raw payload is placed at buffer offset 6 while the first
6 buffer bytes are left as they were (no canonical header is written
during ingestion). -/
theorem headerless_classification (content : List Nat) (st : PState)
    (h : content.length = rawDataSize) :
    (processFileIngest content st).1 = Shape.headerlessBank ∧
    (processFileIngest content st).2.fixNeeded = true ∧
    (processFileIngest content st).2.softError = true ∧
    verifierRuns (processFileIngest content st).2 = false ∧
    (processFileIngest content st).2.buffer
      = st.buffer.take 6 ++ content ++ st.buffer.drop (6 + rawDataSize) := by
  simp [processFileIngest, verifierRuns, h, rawDataSize, sysexSize, singleSysexSize]

/-- Witness for C7 (amended) at an all-ones 4096-byte file on a fresh
process state. -/
theorem headerless_classification_witness :
    (List.replicate rawDataSize (1 : Nat)).length = rawDataSize ∧
    (processFileIngest (List.replicate rawDataSize 1) initialPState).1
      = Shape.headerlessBank ∧
    (processFileIngest (List.replicate rawDataSize 1) initialPState).2.fixNeeded
      = true := by
  refine ⟨List.length_replicate .., ?_, ?_⟩
  · exact (headerless_classification _ _ (List.length_replicate ..)).1
  · exact (headerless_classification _ _ (List.length_replicate ..)).2.1

/-- Helper: `flatMap` preserves pointwise sublists. -/
theorem flatMap_sublist {α β : Type} (l : List α) (f g : α → List β)
    (h : ∀ a, (f a).Sublist (g a)) : (l.flatMap f).Sublist (l.flatMap g) := by
  induction l with
  | nil => simp
  | cons x xs ih => simpa [List.flatMap_cons] using (h x).append ih

/-- Helper: the reported duplicate pairs form a sublist of all candidate
pairs in loop order. -/
theorem findDupes_sublist (sysex : DX7Sysex) :
    (FindDupes sysex).Sublist allPairs := by
  unfold FindDupes allPairs
  exact flatMap_sublist _ _ _ (fun i => (List.filter_sublist _).map _)

/-- Helper: the loop-order enumeration of candidate pairs is strictly
lexicographically sorted. -/
theorem allPairs_pairwise : allPairs.Pairwise pairLt := by
  unfold allPairs
  rw [List.flatMap_def, List.pairwise_flatten]
  constructor
  · intro l hl
    simp only [List.mem_map, List.mem_range] at hl
    obtain ⟨i, hi, rfl⟩ := hl
    rw [List.pairwise_map]
    exact (List.pairwise_lt_range' (i + 1) (31 - i)).imp fun hab => Or.inr ⟨rfl, hab⟩
  · rw [List.pairwise_map]
    refine (List.pairwise_lt_range 31).imp ?_
    intro a b hab x hx y hy
    simp only [List.mem_map] at hx hy
    obtain ⟨xa, _, rfl⟩ := hx
    obtain ⟨ya, _, rfl⟩ := hy
    exact Or.inl hab

/-- C8: the duplicate detector reports the pair (i, j) exactly when
0 ≤ i < j < 32 and the first 118 bytes of the two 128-byte packed voice
records (everything except the trailing 10-byte name field) are equal,
and the reported pairs appear in ascending i, then ascending j, order. -/
theorem findDupes_spec (sysex : DX7Sysex) :
    (∀ i j : Nat, (i, j) ∈ FindDupes sysex ↔
        (i < j ∧ j < 32 ∧ voiceCmp sysex i = voiceCmp sysex j)) ∧
    (FindDupes sysex).Pairwise pairLt := by
  constructor
  · intro i j
    simp only [FindDupes, List.mem_flatMap, List.mem_map, List.mem_filter,
      List.mem_range, decide_eq_true_eq, List.mem_range'_1, Prod.mk.injEq]
    constructor
    · rintro ⟨a, ha, b, ⟨⟨hb1, hb2⟩, heq⟩, rfl, rfl⟩
      exact ⟨by omega, by omega, heq⟩
    · rintro ⟨hij, hj, heq⟩
      exact ⟨i, by omega, j, ⟨⟨by omega, by omega⟩, heq⟩, rfl, rfl⟩
  · exact List.Pairwise.sublist (findDupes_sublist sysex) allPairs_pairwise

end DX7Dump
